import Mathlib

/-!
Verification of the NTP2 non-blocking NTP client (NTP2.cpp, final revision).

The C++ sources are shallowly embedded: every member function of the `NTP2`
class that the properties concern becomes a pure Lean function over an
explicit `State` record.  Machine integers are modelled as `Nat` with explicit
reduction modulo 2^8 / 2^32 / 2^64 at the points where the fixed widths of
the C types matter; the C cast `(int32_t)` is modelled by `toInt32 : Nat -> Int`.
The millisecond clock `millis()` and the UDP transport results are passed in
as explicit parameters (`now`, `Env`).
-/

namespace NTP2

/-- `NTP_PACKET_SIZE` from NTP2.h. -/
def NTP_PACKET_SIZE : Nat := 48

/-- `SEVENTYYEARS` from NTP2.h: seconds between 1900-01-01 and 1970-01-01. -/
def SEVENTYYEARS : Nat := 2208988800

/-- Status code `NTP_BAD_PACKET` (0x00) from the `NTPStatus` enum. -/
def NTP_BAD_PACKET : Nat := 0x00

/-- Status code `NTP_IDLE` (0x01) from the `NTPStatus` enum. -/
def NTP_IDLE : Nat := 0x01

/-- Status code `NTP_CONNECTED` (0x02) from the `NTPStatus` enum. -/
def NTP_CONNECTED : Nat := 0x02

/-- Status code `NTP_UNKNOWN_KOD` (0x20) from the `NTPStatus` enum. -/
def NTP_UNKNOWN_KOD : Nat := 0x20

/-- The `kodLookup` table from NTP2.h: each entry is the 4 ASCII bytes of the
kiss code paired with the returned status code.  (`strcmp` of the 4 packet
bytes against a 4-character NUL-free table entry succeeds exactly when the 4
bytes agree, so the table codes are modelled as 4-byte lists.) -/
def kodLookup : List (List Nat × Nat) :=
  [([82, 65, 84, 69], 0x10),  -- RATE
   ([68, 69, 78, 89], 0x11),  -- DENY
   ([65, 67, 83, 84], 0x12),  -- ACST
   ([65, 85, 84, 72], 0x13),  -- AUTH
   ([65, 85, 84, 79], 0x14),  -- AUTO
   ([66, 67, 83, 84], 0x15),  -- BCST
   ([67, 82, 89, 80], 0x16),  -- CRYP
   ([68, 82, 79, 80], 0x17),  -- DROP
   ([82, 83, 84, 82], 0x18),  -- RSTR
   ([73, 78, 73, 84], 0x19),  -- INIT
   ([77, 67, 83, 84], 0x1A),  -- MCST
   ([78, 75, 69, 89], 0x1B),  -- NKEY
   ([78, 84, 83, 78], 0x1C),  -- NTSN
   ([82, 77, 79, 84], 0x1D),  -- RMOT
   ([83, 84, 69, 80], 0x1E),  -- STEP
   ([85, 78, 75, 78], 0x20)]  -- UNKN

/-- Read one byte of a packet buffer (a `uint8_t` array: values are below
256, enforced here by an explicit reduction). Out-of-range reads give 0. -/
def getByte (q : List Nat) (i : Nat) : Nat := q.getD i 0 % 256

/-- Big-endian reassembly of four consecutive packet bytes into a `uint32_t`,
as in `((uint32_t)q[i] << 24) | ... | (uint32_t)q[i+3]` (for byte values the
bitwise-or of disjoint shifted bytes equals addition). -/
def be32 (q : List Nat) (i : Nat) : Nat :=
  getByte q i * 16777216 + getByte q (i + 1) * 65536 +
    getByte q (i + 2) * 256 + getByte q (i + 3)

/-- Leap Indicator: `(ntpQuery[0] & 0xC0) >> 6`. -/
def liOf (q : List Nat) : Nat := getByte q 0 / 64

/-- Version: `(ntpQuery[0] & 0x38) >> 3`. -/
def versionOf (q : List Nat) : Nat := getByte q 0 / 8 % 8

/-- Mode: `ntpQuery[0] & 0x07`. -/
def modeOf (q : List Nat) : Nat := getByte q 0 % 8

/-- Stratum: `ntpQuery[1]`. -/
def stratumOf (q : List Nat) : Nat := getByte q 1

/-- The 4 Reference-ID bytes at offsets 12..15 used as the kiss code. -/
def kodBytes (q : List Nat) : List Nat :=
  [getByte q 12, getByte q 13, getByte q 14, getByte q 15]

/-- `uint32_t` subtraction `a - b` (wraps modulo 2^32). -/
def u32sub (a b : Nat) : Nat :=
  (a % 4294967296 + 4294967296 - b % 4294967296) % 4294967296

/-- The C cast `(int32_t)x` of an unsigned 32-bit value. -/
def toInt32 (x : Nat) : Int :=
  if x % 4294967296 < 2147483648 then (x % 4294967296 : Int)
  else (x % 4294967296 : Int) - 4294967296

/-- The instance fields of the `NTP2` class that the state machine reads and
writes (transport handle and server identity are external and omitted). -/
structure State where
  defaultInterval : Nat
  activeInterval : Nat
  responseDelayValue : Nat
  retryDelayValue : Nat
  ntpTimeSeconds : Nat
  lastUpdate : Nat
  requestTimestamp : Nat
  lastResponseMillis : Nat
  lastSyncMillis : Nat
  ntpMillisAtSync : Nat
  reqTxSec : Nat
  reqTxFrac : Nat
  force : Bool
  ntpSt : Nat
  ntpRequest : List Nat
  ntpQuery : List Nat
deriving DecidableEq, Repr

/-- External inputs of one `update()` tick: the `millis()` reading, the last
complete 48-byte datagram drained from the UDP buffer (or `none`), and
whether `beginPacket`/`write`/`endPacket` all succeed. -/
structure Env where
  now : Nat
  pkt : Option (List Nat)
  sendOk : Bool
deriving DecidableEq, Repr

/-- `NTP2::checkValid(uint32_t tempTimeSeconds)`. -/
def checkValid (q : List Nat) (tempTimeSeconds : Nat) : Bool :=
  if tempTimeSeconds = 0 then false
  else if liOf q = 3 then false
  else if versionOf q < 3 ∨ 4 < versionOf q then false
  else if modeOf q ≠ 4 ∧ modeOf q ≠ 5 then false
  else decide (1 ≤ stratumOf q ∧ stratumOf q ≤ 15)

/-- `NTP2::badRead()`: back off to the retry interval and report
`NTP_BAD_PACKET`; the sync record fields are deliberately not touched. -/
def badRead (s : State) : State × Nat :=
  ({s with activeInterval := s.retryDelayValue, ntpSt := NTP_BAD_PACKET},
   NTP_BAD_PACKET)

/-- Body of `NTP2::processNTPResponse()` after a complete 48-byte datagram
`q` has been read into `ntpQuery`. -/
def processPacket (s : State) (q : List Nat) (now : Nat) : State × Nat :=
  if stratumOf q = 0 ∧ (modeOf q = 4 ∨ modeOf q = 5) then
    match kodLookup.find? (fun k => k.1 == kodBytes q) with
    | some k =>
        ({s with ntpQuery := q, activeInterval := s.retryDelayValue,
                 ntpSt := k.2}, k.2)
    | none =>
        ({s with ntpQuery := q, activeInterval := s.retryDelayValue,
                 ntpSt := NTP_UNKNOWN_KOD}, NTP_UNKNOWN_KOD)
  else if be32 q 24 ≠ s.reqTxSec ∨ be32 q 28 ≠ s.reqTxFrac then
    badRead {s with ntpQuery := q}
  else if be32 q 40 = 0 then
    badRead {s with ntpQuery := q}
  else if ¬ checkValid q (be32 q 40) then
    badRead {s with ntpQuery := q}
  else
    ({s with ntpQuery := q,
             ntpTimeSeconds := be32 q 40,
             lastSyncMillis := now % 4294967296,
             ntpMillisAtSync :=
               (be32 q 40 * 1000 + be32 q 44 * 1000 / 4294967296) %
                 18446744073709551616,
             activeInterval :=
               if s.activeInterval ≠ s.defaultInterval then s.defaultInterval
               else s.activeInterval,
             lastResponseMillis := now % 4294967296,
             ntpSt := NTP_CONNECTED}, NTP_CONNECTED)

/-- `NTP2::processNTPResponse()`: clears the pending-request marker, zeroes
`ntpQuery`, drains the UDP buffer (modelled by `pkt`: the last complete
48-byte datagram, if any), then processes it. -/
def processNTPResponse (s : State) (pkt : Option (List Nat)) (now : Nat) :
    State × Nat :=
  match pkt with
  | none =>
      badRead {s with requestTimestamp := 0, ntpQuery := List.replicate 48 0}
  | some q =>
      processPacket
        {s with requestTimestamp := 0, ntpQuery := List.replicate 48 0} q now

/-- The request datagram built by `NTP2::init()`: byte 0 is
`0b00100011` (LI=0, VN=4, Mode=3), bytes 40..43 carry `millis()` big-endian
as the request token, everything else is zero. -/
def initPacket (now : Nat) : List Nat :=
  [0b00100011,
   0, 0, 0, 0, 0, 0, 0, 0, 0, 0, 0, 0, 0, 0, 0, 0, 0, 0, 0,
   0, 0, 0, 0, 0, 0, 0, 0, 0, 0, 0, 0, 0, 0, 0, 0, 0, 0, 0, 0,
   now % 4294967296 / 16777216 % 256,
   now % 4294967296 / 65536 % 256,
   now % 4294967296 / 256 % 256,
   now % 4294967296 % 256,
   0, 0, 0, 0]

/-- `NTP2::init()`: rebuilds `ntpRequest` and records the request token
(`reqTxSec = millis()`, `reqTxFrac = 0`). -/
def ntpInit (s : State) (now : Nat) : State :=
  {s with ntpRequest := initPacket now,
          reqTxSec := now % 4294967296,
          reqTxFrac := 0}

/-- `NTP2::sendNTPRequest()`. -/
def sendNTPRequest (s : State) (e : Env) : State × Nat :=
  let s1 := ntpInit {s with lastUpdate := e.now % 4294967296} e.now
  if ¬ e.sendOk then
    ({s1 with ntpSt := NTP_BAD_PACKET}, NTP_BAD_PACKET)
  else
    ({s1 with requestTimestamp := e.now % 4294967296, force := false,
              ntpSt := NTP_IDLE}, NTP_IDLE)

/-- `NTP2::update()`: the single non-blocking tick. -/
def update (s : State) (e : Env) : State × Nat :=
  if s.requestTimestamp ≠ 0 then
    if toInt32 (u32sub e.now s.requestTimestamp) ≥ toInt32 s.responseDelayValue
    then processNTPResponse s e.pkt e.now
    else (s, NTP_IDLE)
  else if s.force ∨ toInt32 (u32sub e.now s.lastUpdate) ≥ toInt32 s.activeInterval
  then sendNTPRequest s e
  else (s, NTP_IDLE)

/-- `NTP2::forceUpdate()`. -/
def forceUpdate (s : State) (e : Env) : State × Nat :=
  if s.requestTimestamp ≠ 0 then (s, NTP_BAD_PACKET)
  else update {s with force := true} e

/-- The elapsed-milliseconds computation inside `NTP2::epoch()`:
`int32_t elapsedMs = (int32_t)(now - lastSyncMillis); if (elapsedMs < 0)
elapsedMs = 0;` followed by the cast back to `uint32_t`. -/
def epochElapsedMs (lastSyncMillis now : Nat) : Nat :=
  if u32sub now lastSyncMillis < 2147483648 then u32sub now lastSyncMillis
  else 0

/-- The computed Unix-epoch seconds inside `NTP2::epoch()`:
`(time_t)(currentNtpMillis / 1000ULL - SEVENTYYEARS)` where
`currentNtpMillis = ntpMillisAtSync + (uint32_t)elapsedMs` in `uint64_t`
arithmetic and `time_t` is the 32-bit unsigned type from NTP2.h. -/
def unixNowOf (s : State) (now : Nat) : Nat :=
  ((s.ntpMillisAtSync % 18446744073709551616 +
      epochElapsedMs s.lastSyncMillis now) % 18446744073709551616 / 1000 +
    18446744073709551616 - SEVENTYYEARS) % 18446744073709551616 % 4294967296

/-- `NTP2::epoch()`. -/
def epoch (s : State) (now : Nat) : Nat :=
  if s.ntpTimeSeconds = 0 ∨ s.lastSyncMillis = 0 then 0
  else if unixNowOf s now < 946684800 ∨ 4102444800 < unixNowOf s now then 0
  else unixNowOf s now

/-- A concrete instance state with the default timing configuration of
NTP2.h (poll 1800000 ms, response delay 250 ms, retry 30000 ms). -/
def mkState : State :=
  { defaultInterval := 1800000
    activeInterval := 1800000
    responseDelayValue := 250
    retryDelayValue := 30000
    ntpTimeSeconds := 0
    lastUpdate := 0
    requestTimestamp := 0
    lastResponseMillis := 0
    lastSyncMillis := 0
    ntpMillisAtSync := 0
    reqTxSec := 0
    reqTxFrac := 0
    force := false
    ntpSt := 1
    ntpRequest := []
    ntpQuery := [] }

/-- A well-formed server response: LI=0, VN=4, Mode=4, Stratum=1, Originate
Timestamp = (5, 0), Transmit Timestamp seconds = 233*2^24 = 3909091328,
fraction = 0. -/
def validPkt : List Nat :=
  [36, 1, 0, 0, 0, 0, 0, 0, 0, 0,
   0, 0, 0, 0, 0, 0, 0, 0, 0, 0,
   0, 0, 0, 0, 0, 0, 0, 5, 0, 0,
   0, 0, 0, 0, 0, 0, 0, 0, 0, 0,
   233, 0, 0, 0, 0, 0, 0, 0]

/-- A Kiss-of-Death response (Stratum=0, Mode=4) whose Reference ID bytes
spell RATE. -/
def ratePkt : List Nat :=
  [36, 0, 0, 0, 0, 0, 0, 0, 0, 0,
   0, 0, 82, 65, 84, 69, 0, 0, 0, 0,
   0, 0, 0, 0, 0, 0, 0, 0, 0, 0,
   0, 0, 0, 0, 0, 0, 0, 0, 0, 0,
   0, 0, 0, 0, 0, 0, 0, 0]

/-- A Kiss-of-Death response (Stratum=0, Mode=4) whose Reference ID bytes
spell ZZZZ, which is in no entry of the kiss-code table. -/
def zzzzPkt : List Nat :=
  [36, 0, 0, 0, 0, 0, 0, 0, 0, 0,
   0, 0, 90, 90, 90, 90, 0, 0, 0, 0,
   0, 0, 0, 0, 0, 0, 0, 0, 0, 0,
   0, 0, 0, 0, 0, 0, 0, 0, 0, 0,
   0, 0, 0, 0, 0, 0, 0, 0]

/-- A response that matches the request token and has Stratum=1 and Mode=4
but carries Version=2 (byte 0 = 0b00010100), violating field validation. -/
def badVersionPkt : List Nat :=
  [20, 1, 0, 0, 0, 0, 0, 0, 0, 0,
   0, 0, 0, 0, 0, 0, 0, 0, 0, 0,
   0, 0, 0, 0, 0, 0, 0, 5, 0, 0,
   0, 0, 0, 0, 0, 0, 0, 0, 0, 0,
   233, 0, 0, 0, 0, 0, 0, 0]

/-- A synchronized state with a pending request (marker 10): network seconds
3909091328, sync record taken at local clock 100. -/
def failState : State :=
  { mkState with
      ntpTimeSeconds := 3909091328
      lastSyncMillis := 100
      ntpMillisAtSync := 3909091328000
      requestTimestamp := 10 }

/-- A state with a pending request (marker 10) whose request token is 5,
with the retry back-off currently active. -/
def pendingState : State :=
  { mkState with
      requestTimestamp := 10
      reqTxSec := 5
      activeInterval := 30000 }

/-- The state `pendingState` reaches after accepting `validPkt` at clock
reading 300. -/
def connectedState : State :=
  { mkState with
      ntpQuery := validPkt
      reqTxSec := 5
      ntpTimeSeconds := 3909091328
      lastSyncMillis := 300
      ntpMillisAtSync := 3909091328000
      activeInterval := 1800000
      lastResponseMillis := 300
      ntpSt := NTP_CONNECTED }

/-- A state whose sync record makes the computed Unix time land exactly on
4102444800 (2100-01-01): ntpMillisAtSync = (4102444800 + 2208988800)*1000. -/
def boundaryState : State :=
  { mkState with
      ntpTimeSeconds := 1
      lastSyncMillis := 5
      ntpMillisAtSync := 6311433600000 }

/-- A state whose sync record makes the computed Unix time equal 0, far
before 2000-01-01: ntpMillisAtSync = 2208988800*1000. -/
def tooEarlyState : State :=
  { mkState with
      ntpTimeSeconds := 1
      lastSyncMillis := 1
      ntpMillisAtSync := 2208988800000 }

/-! ## Helper lemmas -/

/-- The kiss codes in the table are pairwise distinct, so the linear scan of
`kodLookup` started on the code of one of its own entries finds exactly that
entry. -/
theorem kod_find_self : ∀ k ∈ kodLookup,
    kodLookup.find? (fun en => en.1 == k.1) = some k := by decide

/-- No entry of the kiss-code table carries the status `NTP_CONNECTED`. -/
theorem kod_ret_ne : ∀ k ∈ kodLookup, k.2 ≠ NTP_CONNECTED := by decide

/-- `checkValid` spelled out as the conjunction of the RFC field checks. -/
theorem checkValid_iff (q : List Nat) (t : Nat) :
    checkValid q t = true ↔
      (t ≠ 0 ∧ liOf q ≠ 3 ∧ (versionOf q = 3 ∨ versionOf q = 4) ∧
       (modeOf q = 4 ∨ modeOf q = 5) ∧ 1 ≤ stratumOf q ∧ stratumOf q ≤ 15) := by
  unfold checkValid
  split_ifs with h1 h2 h3 h4 <;> simp_all <;> omega

/-- `processPacket` never modifies the pending-request marker. -/
theorem processPacket_reqTs (s : State) (q : List Nat) (now : Nat) :
    (processPacket s q now).1.requestTimestamp = s.requestTimestamp := by
  unfold processPacket
  split
  · split <;> rfl
  · split_ifs <;> rfl

/-- `processNTPResponse` always clears the pending-request marker, on every
path. -/
theorem processNTPResponse_reqTs (s : State) (pkt : Option (List Nat))
    (now : Nat) : (processNTPResponse s pkt now).1.requestTimestamp = 0 := by
  cases pkt with
  | none => rfl
  | some q =>
      exact processPacket_reqTs
        {s with requestTimestamp := 0, ntpQuery := List.replicate 48 0} q now

/-- On every path of `processPacket` that does not report `NTP_CONNECTED`,
the three sync-record fields are left untouched. -/
theorem processPacket_sync (s : State) (q : List Nat) (now : Nat)
    (h : (processPacket s q now).2 ≠ NTP_CONNECTED) :
    (processPacket s q now).1.ntpTimeSeconds = s.ntpTimeSeconds ∧
    (processPacket s q now).1.lastSyncMillis = s.lastSyncMillis ∧
    (processPacket s q now).1.ntpMillisAtSync = s.ntpMillisAtSync := by
  by_cases h1 : stratumOf q = 0 ∧ (modeOf q = 4 ∨ modeOf q = 5)
  · unfold processPacket
    rw [if_pos h1]
    cases hf : kodLookup.find? (fun k => k.1 == kodBytes q) with
    | none => exact ⟨rfl, rfl, rfl⟩
    | some k => exact ⟨rfl, rfl, rfl⟩
  · by_cases h2 : be32 q 24 ≠ s.reqTxSec ∨ be32 q 28 ≠ s.reqTxFrac
    · unfold processPacket
      rw [if_neg h1, if_pos h2]
      exact ⟨rfl, rfl, rfl⟩
    · by_cases h3 : be32 q 40 = 0
      · unfold processPacket
        rw [if_neg h1, if_neg h2, if_pos h3]
        exact ⟨rfl, rfl, rfl⟩
      · by_cases h4 : checkValid q (be32 q 40) = true
        · exfalso
          apply h
          unfold processPacket
          rw [if_neg h1, if_neg h2, if_neg h3, if_neg (not_not.mpr h4)]
        · unfold processPacket
          rw [if_neg h1, if_neg h2, if_neg h3, if_pos h4]
          exact ⟨rfl, rfl, rfl⟩

/-- Lifting of `processPacket_sync` to `processNTPResponse`. -/
theorem processNTPResponse_sync (s : State) (pkt : Option (List Nat))
    (now : Nat) (h : (processNTPResponse s pkt now).2 ≠ NTP_CONNECTED) :
    (processNTPResponse s pkt now).1.ntpTimeSeconds = s.ntpTimeSeconds ∧
    (processNTPResponse s pkt now).1.lastSyncMillis = s.lastSyncMillis ∧
    (processNTPResponse s pkt now).1.ntpMillisAtSync = s.ntpMillisAtSync := by
  cases pkt with
  | none => exact ⟨rfl, rfl, rfl⟩
  | some q =>
      exact processPacket_sync
        {s with requestTimestamp := 0, ntpQuery := List.replicate 48 0} q now h

/-- `epoch` depends only on the three sync-record fields. -/
theorem epoch_fields (s t : State) (n : Nat)
    (h1 : t.ntpTimeSeconds = s.ntpTimeSeconds)
    (h2 : t.lastSyncMillis = s.lastSyncMillis)
    (h3 : t.ntpMillisAtSync = s.ntpMillisAtSync) :
    epoch t n = epoch s n := by
  unfold epoch unixNowOf
  rw [h1, h2, h3]

/-- The correlation-mismatch path of `processPacket` (claim-level content,
stated over an arbitrary pre-state). -/
theorem pp_corr (s : State) (q : List Nat) (now : Nat)
    (hkod : ¬(stratumOf q = 0 ∧ (modeOf q = 4 ∨ modeOf q = 5)))
    (hmis : be32 q 24 ≠ s.reqTxSec ∨ be32 q 28 ≠ s.reqTxFrac) :
    processPacket s q now =
      ({s with ntpQuery := q, activeInterval := s.retryDelayValue,
               ntpSt := NTP_BAD_PACKET}, NTP_BAD_PACKET) := by
  unfold processPacket
  rw [if_neg hkod, if_pos hmis]
  rfl

/-- The fully-validated success path of `processPacket`. -/
theorem pp_success (s : State) (q : List Nat) (now : Nat)
    (hkod : ¬(stratumOf q = 0 ∧ (modeOf q = 4 ∨ modeOf q = 5)))
    (hsec : be32 q 24 = s.reqTxSec) (hfrac : be32 q 28 = s.reqTxFrac)
    (htx : be32 q 40 ≠ 0)
    (hcv : checkValid q (be32 q 40) = true) :
    processPacket s q now =
      ({s with ntpQuery := q,
               ntpTimeSeconds := be32 q 40,
               lastSyncMillis := now % 4294967296,
               ntpMillisAtSync :=
                 (be32 q 40 * 1000 + be32 q 44 * 1000 / 4294967296) %
                   18446744073709551616,
               activeInterval := s.defaultInterval,
               lastResponseMillis := now % 4294967296,
               ntpSt := NTP_CONNECTED}, NTP_CONNECTED) := by
  unfold processPacket
  rw [if_neg hkod, if_neg (by push_neg; exact ⟨hsec, hfrac⟩), if_neg htx,
      if_neg (not_not.mpr hcv)]
  by_cases hai : s.activeInterval = s.defaultInterval
  · rw [if_neg (not_not.mpr hai), hai]
  · rw [if_pos hai]

/-- If `processPacket` reports `NTP_CONNECTED` it has taken the success
branch, which stamps `lastSyncMillis` with the clock reading. -/
theorem pp_connected_lastSync (s : State) (q : List Nat) (now : Nat)
    (h : (processPacket s q now).2 = NTP_CONNECTED) :
    (processPacket s q now).1.lastSyncMillis = now % 4294967296 := by
  by_cases hk : stratumOf q = 0 ∧ (modeOf q = 4 ∨ modeOf q = 5)
  · exfalso
    unfold processPacket at h
    rw [if_pos hk] at h
    cases heq : kodLookup.find? (fun k => k.1 == kodBytes q) with
    | some k =>
        rw [heq] at h
        exact kod_ret_ne k (List.mem_of_find?_eq_some heq) h
    | none =>
        rw [heq] at h
        simp [NTP_UNKNOWN_KOD, NTP_CONNECTED] at h
  · by_cases h2 : be32 q 24 ≠ s.reqTxSec ∨ be32 q 28 ≠ s.reqTxFrac
    · exfalso
      unfold processPacket at h
      rw [if_neg hk, if_pos h2] at h
      simp [badRead, NTP_BAD_PACKET, NTP_CONNECTED] at h
    · by_cases h3 : be32 q 40 = 0
      · exfalso
        unfold processPacket at h
        rw [if_neg hk, if_neg h2, if_pos h3] at h
        simp [badRead, NTP_BAD_PACKET, NTP_CONNECTED] at h
      · by_cases h4 : checkValid q (be32 q 40) = true
        · unfold processPacket
          rw [if_neg hk, if_neg h2, if_neg h3, if_neg (not_not.mpr h4)]
        · exfalso
          unfold processPacket at h
          rw [if_neg hk, if_neg h2, if_neg h3, if_pos h4] at h
          simp [badRead, NTP_BAD_PACKET, NTP_CONNECTED] at h

/-! ## Claims -/

/-- Claim C1: `epoch()` computes the elapsed local time as the
modulus-preserving unsigned 32-bit subtraction of `lastSyncMillis` from the
current clock reading — any sync-to-query delta below 2^31 ms survives
wraparound intact (in particular a sync at clock 0xFFFFFFF0 queried at
clock 0x10 yields the small delta 0x20 ms) — and any difference whose
signed 32-bit interpretation is negative is clamped to zero. -/
theorem epoch_elapsed_wraparound :
    (∀ last delta : Nat, last < 4294967296 → delta < 2147483648 →
        epochElapsedMs last ((last + delta) % 4294967296) = delta) ∧
    (∀ last now : Nat, 2147483648 ≤ u32sub now last →
        epochElapsedMs last now = 0) ∧
    epochElapsedMs 0xFFFFFFF0 0x10 = 0x20 ∧
    (∀ s : State, s.ntpTimeSeconds = 3909091328 →
        s.lastSyncMillis = 0xFFFFFFF0 → s.ntpMillisAtSync = 3909091328000 →
        epoch s 0x10 = 1700102528) := by
  refine ⟨?_, ?_, ?_, ?_⟩
  · intro last delta h1 h2
    unfold epochElapsedMs u32sub
    split <;> omega
  · intro last now h
    unfold epochElapsedMs
    rw [if_neg (by omega)]
  · decide
  · intro s h1 h2 h3
    simp only [epoch, unixNowOf, epochElapsedMs, u32sub, SEVENTYYEARS, h1, h2, h3]
    decide

/-- Witness for C1 at concrete inputs: the wrapped subtraction
0x10 - 0xFFFFFFF0 gives 0x20 = 32, and a difference that is negative as a
signed 32-bit value (here 50 - 100) is clamped to zero. -/
theorem epoch_elapsed_wraparound_witness :
    epochElapsedMs 4294967280 16 = 32 ∧ epochElapsedMs 100 50 = 0 :=
  ⟨epoch_elapsed_wraparound.1 4294967280 32 (by decide) (by decide),
   epoch_elapsed_wraparound.2.1 100 50 (by decide)⟩

/-- Claim C2: a received 48-byte response that is not a Kiss-of-Death packet
and whose Originate Timestamp (bytes 24..27 seconds, 28..31 fraction) does
not exactly equal the stored Request Token is rejected by
`processNTPResponse` with `NTP_BAD_PACKET` (and the retry back-off), however
well-formed the rest of the packet is. -/
theorem correlation_mismatch_rejected (s : State) (q : List Nat) (now : Nat)
    (hlen : q.length = 48)
    (hkod : ¬(stratumOf q = 0 ∧ (modeOf q = 4 ∨ modeOf q = 5)))
    (hmis : be32 q 24 ≠ s.reqTxSec ∨ be32 q 28 ≠ s.reqTxFrac) :
    processNTPResponse s (some q) now =
      ({s with requestTimestamp := 0, ntpQuery := q,
               activeInterval := s.retryDelayValue, ntpSt := NTP_BAD_PACKET},
       NTP_BAD_PACKET) :=
  pp_corr {s with requestTimestamp := 0, ntpQuery := List.replicate 48 0}
    q now hkod hmis

/-- Witness for C2: `validPkt` is fully well-formed and carries Originate
Timestamp (5, 0), but the outstanding request token is 6, so the packet is
rejected with `NTP_BAD_PACKET`. -/
theorem correlation_mismatch_rejected_witness :
    processNTPResponse {mkState with requestTimestamp := 11, reqTxSec := 6}
        (some validPkt) 70 =
      ({mkState with requestTimestamp := 0, ntpQuery := validPkt,
                     activeInterval := 30000, reqTxSec := 6,
                     ntpSt := NTP_BAD_PACKET}, NTP_BAD_PACKET) :=
  correlation_mismatch_rejected
    {mkState with requestTimestamp := 11, reqTxSec := 6} validPkt 70
    (by decide) (by decide) (by decide)

/-- Claim C3: `forceUpdate()` invoked while a request is outstanding returns
`NTP_BAD_PACKET` immediately and changes nothing at all (the returned state
is the input state, so neither the outstanding timeout nor any status or
timing field moves); moreover a tick taken in the pending state never
installs a fresh request marker — it either clears the marker by processing
or leaves it exactly as it was, so at most one request is outstanding. -/
theorem force_no_overlap (s : State) (e : Env)
    (h : s.requestTimestamp ≠ 0) :
    forceUpdate s e = (s, NTP_BAD_PACKET) ∧
    ((update s e).1.requestTimestamp = 0 ∨
      (update s e).1.requestTimestamp = s.requestTimestamp) := by
  constructor
  · unfold forceUpdate
    rw [if_pos h]
  · unfold update
    rw [if_pos h]
    split
    · left
      exact processNTPResponse_reqTs s e.pkt e.now
    · right
      rfl

/-- Witness for C3 with a pending request marker 7. -/
theorem force_no_overlap_witness :
    forceUpdate {mkState with requestTimestamp := 7} ⟨5, none, true⟩ =
      ({mkState with requestTimestamp := 7}, NTP_BAD_PACKET) ∧
    ((update {mkState with requestTimestamp := 7} ⟨5, none, true⟩).1.requestTimestamp = 0 ∨
      (update {mkState with requestTimestamp := 7} ⟨5, none, true⟩).1.requestTimestamp = 7) :=
  force_no_overlap {mkState with requestTimestamp := 7} ⟨5, none, true⟩
    (by decide)

/-- Claim C4: a received 48-byte response with Stratum 0 and Mode 4 or 5 is
treated as Kiss-of-Death: if its 4 Reference-ID bytes equal the code of a
table entry, that entry is the returned status, otherwise
`NTP_UNKNOWN_KOD` is returned; in both cases the active polling interval is
switched to the configured retry interval. -/
theorem kod_mapping (s : State) (q : List Nat) (now : Nat)
    (hlen : q.length = 48)
    (h0 : stratumOf q = 0) (hm : modeOf q = 4 ∨ modeOf q = 5) :
    (∀ r : Nat, (kodBytes q, r) ∈ kodLookup →
        processNTPResponse s (some q) now =
          ({s with requestTimestamp := 0, ntpQuery := q,
                   activeInterval := s.retryDelayValue, ntpSt := r}, r)) ∧
    ((∀ en ∈ kodLookup, en.1 ≠ kodBytes q) →
        processNTPResponse s (some q) now =
          ({s with requestTimestamp := 0, ntpQuery := q,
                   activeInterval := s.retryDelayValue,
                   ntpSt := NTP_UNKNOWN_KOD}, NTP_UNKNOWN_KOD)) := by
  constructor
  · intro r hr
    show processPacket _ q now = _
    unfold processPacket
    rw [if_pos ⟨h0, hm⟩,
        show kodLookup.find? (fun en => en.1 == kodBytes q) =
            some (kodBytes q, r) from kod_find_self (kodBytes q, r) hr]
  · intro hn
    show processPacket _ q now = _
    unfold processPacket
    rw [if_pos ⟨h0, hm⟩, List.find?_eq_none.mpr ?_]
    intro x hx
    simp only [beq_iff_eq]
    exact hn x hx

/-- Witness for C4: Reference-ID bytes RATE yield status 0x10 with the
retry interval installed; bytes ZZZZ yield `NTP_UNKNOWN_KOD` likewise. -/
theorem kod_mapping_witness :
    processNTPResponse mkState (some ratePkt) 99 =
      ({mkState with requestTimestamp := 0, ntpQuery := ratePkt,
                     activeInterval := 30000, ntpSt := 0x10}, 0x10) ∧
    processNTPResponse mkState (some zzzzPkt) 99 =
      ({mkState with requestTimestamp := 0, ntpQuery := zzzzPkt,
                     activeInterval := 30000,
                     ntpSt := NTP_UNKNOWN_KOD}, NTP_UNKNOWN_KOD) :=
  ⟨(kod_mapping mkState ratePkt 99 (by decide) (by decide) (by decide)).1
      0x10 (by decide),
   (kod_mapping mkState zzzzPkt 99 (by decide) (by decide) (by decide)).2
      (by decide)⟩

/-- Claim C5: a received 48-byte non-Kiss-of-Death response is accepted
(`NTP_CONNECTED`) only if Leap Indicator is not 3, Version is 3 or 4, Mode
is 4 or 5, Stratum lies in [1, 15] and the Transmit Timestamp seconds field
is non-zero; when any of these is violated the result is
`NTP_BAD_PACKET`. -/
theorem field_validation (s : State) (q : List Nat) (now : Nat)
    (hlen : q.length = 48)
    (hkod : ¬(stratumOf q = 0 ∧ (modeOf q = 4 ∨ modeOf q = 5))) :
    ((processNTPResponse s (some q) now).2 = NTP_CONNECTED →
       (liOf q ≠ 3 ∧ (versionOf q = 3 ∨ versionOf q = 4) ∧
        (modeOf q = 4 ∨ modeOf q = 5) ∧
        1 ≤ stratumOf q ∧ stratumOf q ≤ 15 ∧ be32 q 40 ≠ 0)) ∧
    (¬(liOf q ≠ 3 ∧ (versionOf q = 3 ∨ versionOf q = 4) ∧
        (modeOf q = 4 ∨ modeOf q = 5) ∧
        1 ≤ stratumOf q ∧ stratumOf q ≤ 15 ∧ be32 q 40 ≠ 0) →
       (processNTPResponse s (some q) now).2 = NTP_BAD_PACKET) := by
  have main : ∀ t : State,
      ((processPacket t q now).2 = NTP_CONNECTED →
        (liOf q ≠ 3 ∧ (versionOf q = 3 ∨ versionOf q = 4) ∧
         (modeOf q = 4 ∨ modeOf q = 5) ∧
         1 ≤ stratumOf q ∧ stratumOf q ≤ 15 ∧ be32 q 40 ≠ 0)) ∧
      (¬(liOf q ≠ 3 ∧ (versionOf q = 3 ∨ versionOf q = 4) ∧
          (modeOf q = 4 ∨ modeOf q = 5) ∧
          1 ≤ stratumOf q ∧ stratumOf q ≤ 15 ∧ be32 q 40 ≠ 0) →
        (processPacket t q now).2 = NTP_BAD_PACKET) := by
    intro t
    by_cases h2 : be32 q 24 ≠ t.reqTxSec ∨ be32 q 28 ≠ t.reqTxFrac
    · unfold processPacket
      rw [if_neg hkod, if_pos h2]
      exact ⟨fun h => by simp [badRead, NTP_BAD_PACKET, NTP_CONNECTED] at h,
             fun _ => rfl⟩
    · by_cases h3 : be32 q 40 = 0
      · unfold processPacket
        rw [if_neg hkod, if_neg h2, if_pos h3]
        exact ⟨fun h => by simp [badRead, NTP_BAD_PACKET, NTP_CONNECTED] at h,
               fun _ => rfl⟩
      · by_cases h4 : checkValid q (be32 q 40) = true
        · unfold processPacket
          rw [if_neg hkod, if_neg h2, if_neg h3, if_neg (not_not.mpr h4)]
          have hv := (checkValid_iff q (be32 q 40)).mp h4
          refine ⟨fun _ => ⟨hv.2.1, hv.2.2.1, hv.2.2.2.1, hv.2.2.2.2.1,
            hv.2.2.2.2.2, h3⟩, fun hcon => absurd ⟨hv.2.1, hv.2.2.1,
            hv.2.2.2.1, hv.2.2.2.2.1, hv.2.2.2.2.2, h3⟩ hcon⟩
        · unfold processPacket
          rw [if_neg hkod, if_neg h2, if_neg h3, if_pos h4]
          exact ⟨fun h => by simp [badRead, NTP_BAD_PACKET, NTP_CONNECTED] at h,
                 fun _ => rfl⟩
  exact main {s with requestTimestamp := 0, ntpQuery := List.replicate 48 0}

/-- Witness for C5: `badVersionPkt` carries Version 2, so even with a
matching request token it is rejected with `NTP_BAD_PACKET`. -/
theorem field_validation_witness :
    ((processNTPResponse {mkState with reqTxSec := 5} (some badVersionPkt) 70).2 =
        NTP_CONNECTED →
      (liOf badVersionPkt ≠ 3 ∧
       (versionOf badVersionPkt = 3 ∨ versionOf badVersionPkt = 4) ∧
       (modeOf badVersionPkt = 4 ∨ modeOf badVersionPkt = 5) ∧
       1 ≤ stratumOf badVersionPkt ∧ stratumOf badVersionPkt ≤ 15 ∧
       be32 badVersionPkt 40 ≠ 0)) ∧
    (¬(liOf badVersionPkt ≠ 3 ∧
       (versionOf badVersionPkt = 3 ∨ versionOf badVersionPkt = 4) ∧
       (modeOf badVersionPkt = 4 ∨ modeOf badVersionPkt = 5) ∧
       1 ≤ stratumOf badVersionPkt ∧ stratumOf badVersionPkt ≤ 15 ∧
       be32 badVersionPkt 40 ≠ 0) →
      (processNTPResponse {mkState with reqTxSec := 5} (some badVersionPkt) 70).2 =
        NTP_BAD_PACKET) :=
  field_validation {mkState with reqTxSec := 5} badVersionPkt 70
    (by decide) (by decide)

/-- Claim C6: no failure path modifies the stored sync record: whenever an
`update()` tick does not return `NTP_CONNECTED` — timeout with no datagram,
malformed packet, bad correlation, or Kiss-of-Death — the three sync-record
fields are unchanged and every later `epoch()` query returns exactly what it
would have returned before the tick. -/
theorem sync_preserved_on_failure (s : State) (e : Env) (t : Nat)
    (h : (update s e).2 ≠ NTP_CONNECTED) :
    (update s e).1.ntpTimeSeconds = s.ntpTimeSeconds ∧
    (update s e).1.lastSyncMillis = s.lastSyncMillis ∧
    (update s e).1.ntpMillisAtSync = s.ntpMillisAtSync ∧
    epoch (update s e).1 t = epoch s t := by
  by_cases h1 : s.requestTimestamp ≠ 0
  · by_cases h2 : toInt32 (u32sub e.now s.requestTimestamp) ≥
        toInt32 s.responseDelayValue
    · have heq : update s e = processNTPResponse s e.pkt e.now := by
        unfold update
        rw [if_pos h1, if_pos h2]
      rw [heq] at h ⊢
      have hs := processNTPResponse_sync s e.pkt e.now h
      exact ⟨hs.1, hs.2.1, hs.2.2, epoch_fields _ _ t hs.1 hs.2.1 hs.2.2⟩
    · have heq : update s e = (s, NTP_IDLE) := by
        unfold update
        rw [if_pos h1, if_neg h2]
      rw [heq]
      exact ⟨rfl, rfl, rfl, rfl⟩
  · by_cases h2 : s.force = true ∨ toInt32 (u32sub e.now s.lastUpdate) ≥
        toInt32 s.activeInterval
    · have heq : update s e = sendNTPRequest s e := by
        unfold update
        rw [if_neg h1, if_pos h2]
      have hs : (sendNTPRequest s e).1.ntpTimeSeconds = s.ntpTimeSeconds ∧
          (sendNTPRequest s e).1.lastSyncMillis = s.lastSyncMillis ∧
          (sendNTPRequest s e).1.ntpMillisAtSync = s.ntpMillisAtSync := by
        unfold sendNTPRequest
        split <;> exact ⟨rfl, rfl, rfl⟩
      rw [heq]
      exact ⟨hs.1, hs.2.1, hs.2.2, epoch_fields _ _ t hs.1 hs.2.1 hs.2.2⟩
    · have heq : update s e = (s, NTP_IDLE) := by
        unfold update
        rw [if_neg h1, if_neg h2]
      rw [heq]
      exact ⟨rfl, rfl, rfl, rfl⟩

/-- Witness for C6: a pending request times out with no datagram; the tick
reports `NTP_BAD_PACKET`, and an `epoch()` query 1000 ms after the sync
still returns the advanced last-known-good time. -/
theorem sync_preserved_on_failure_witness :
    ((update failState ⟨500, none, true⟩).2 ≠ NTP_CONNECTED) ∧
    ((update failState ⟨500, none, true⟩).1.ntpTimeSeconds = 3909091328 ∧
     (update failState ⟨500, none, true⟩).1.lastSyncMillis = 100 ∧
     (update failState ⟨500, none, true⟩).1.ntpMillisAtSync = 3909091328000 ∧
     epoch (update failState ⟨500, none, true⟩).1 1100 =
       epoch failState 1100) :=
  ⟨by decide,
   sync_preserved_on_failure failState ⟨500, none, true⟩ 1100 (by decide)⟩

/-- Claim C7: when a response passes every validation step, the very tick
that processes it returns `NTP_CONNECTED` (not `NTP_IDLE`): it extracts the
Transmit Timestamp seconds and fraction, converts the fraction to
milliseconds as fraction*1000/2^32, writes a new sync record whose
`lastSyncMillis` is the current clock reading, restores the polling
interval to the configured default and reports `NTP_CONNECTED`. -/
theorem valid_response_connected (s : State) (e : Env) (q : List Nat)
    (hp : e.pkt = some q)
    (h1 : s.requestTimestamp ≠ 0)
    (h2 : toInt32 (u32sub e.now s.requestTimestamp) ≥
      toInt32 s.responseDelayValue)
    (hkod : ¬(stratumOf q = 0 ∧ (modeOf q = 4 ∨ modeOf q = 5)))
    (hsec : be32 q 24 = s.reqTxSec) (hfrac : be32 q 28 = s.reqTxFrac)
    (htx : be32 q 40 ≠ 0)
    (hcv : checkValid q (be32 q 40) = true) :
    update s e =
      ({s with requestTimestamp := 0, ntpQuery := q,
               ntpTimeSeconds := be32 q 40,
               lastSyncMillis := e.now % 4294967296,
               ntpMillisAtSync :=
                 (be32 q 40 * 1000 + be32 q 44 * 1000 / 4294967296) %
                   18446744073709551616,
               activeInterval := s.defaultInterval,
               lastResponseMillis := e.now % 4294967296,
               ntpSt := NTP_CONNECTED}, NTP_CONNECTED) := by
  have heq : update s e = processNTPResponse s e.pkt e.now := by
    unfold update
    rw [if_pos h1, if_pos h2]
  rw [heq, hp]
  exact pp_success {s with requestTimestamp := 0, ntpQuery := List.replicate 48 0} q e.now hkod hsec hfrac htx hcv

/-- Witness for C7: a fully valid, correctly correlated response processed
at clock 300 yields `NTP_CONNECTED` on that same tick and installs the new
sync record with the default interval restored. -/
theorem valid_response_connected_witness :
    update pendingState ⟨300, some validPkt, true⟩ =
      (connectedState, NTP_CONNECTED) :=
  valid_response_connected pendingState ⟨300, some validPkt, true⟩ validPkt
    rfl (by decide) (by decide) (by decide) (by decide) (by decide)
    (by decide) (by decide)

/-- Claim C8, counterexample to the stated upper bound: with a sync record
that makes the computed Unix seconds equal exactly 4102444800 (2100-01-01),
`epoch()` returns that value rather than the sentinel 0 — the code uses
`unixNow > MAX_OK`, accepting the boundary point the claim excludes. -/
theorem plausibility_upper_bound_cex :
    unixNowOf boundaryState 5 = 4102444800 ∧ epoch boundaryState 5 ≠ 0 := by
  decide

/-- Claim C8 as amended: if the computed Unix-epoch seconds value is
strictly before 946684800 (2000-01-01) or strictly after 4102444800
(2100-01-01) — i.e. the acceptance interval is closed, not half-open, at
the upper end — then `epoch()` returns the sentinel 0. -/
theorem plausibility_guard (s : State) (now : Nat)
    (h : unixNowOf s now < 946684800 ∨ 4102444800 < unixNowOf s now) :
    epoch s now = 0 := by
  by_cases h0 : s.ntpTimeSeconds = 0 ∨ s.lastSyncMillis = 0
  · unfold epoch
    rw [if_pos h0]
  · unfold epoch
    rw [if_neg h0, if_pos h]

/-- Witness for C8: a sync record whose computed Unix time is 0 (far before
2000-01-01) makes `epoch()` return the sentinel. -/
theorem plausibility_guard_witness : epoch tooEarlyState 1 = 0 :=
  plausibility_guard tooEarlyState 1 (by decide)

set_option maxRecDepth 4000 in
/-- Claim C9: every outgoing request datagram is exactly 48 bytes; byte 0
is 0b00100011 (LI=0, Version=4, Mode=3), bytes 1..39 and 44..47 are zero,
and bytes 40..43 carry the current clock reading (the request token, also
latched into `reqTxSec`, with `reqTxFrac` = 0) in big-endian order. -/
theorem request_packet_format (s : State) (e : Env) (i : Nat)
    (hlo : 1 ≤ i) (hhi : i ≤ 39) :
    (sendNTPRequest s e).1.ntpRequest = initPacket e.now ∧
    (initPacket e.now).length = 48 ∧
    getByte (initPacket e.now) 0 = 0b00100011 ∧
    getByte (initPacket e.now) i = 0 ∧
    be32 (initPacket e.now) 40 = e.now % 4294967296 ∧
    be32 (initPacket e.now) 44 = 0 ∧
    (sendNTPRequest s e).1.reqTxSec = e.now % 4294967296 ∧
    (sendNTPRequest s e).1.reqTxFrac = 0 := by
  refine ⟨?_, by simp [initPacket], by simp [getByte, initPacket], ?_, ?_,
    by simp [be32, getByte, initPacket], ?_, ?_⟩
  · unfold sendNTPRequest
    split <;> rfl
  · interval_cases i <;> simp [getByte, initPacket]
  · simp [be32, getByte, initPacket]
    omega
  · unfold sendNTPRequest
    split <;> rfl
  · unfold sendNTPRequest
    split <;> rfl

/-- Witness for C9 at clock reading 683 (byte 42 = 2, byte 43 = 171). -/
theorem request_packet_format_witness :
    (sendNTPRequest mkState ⟨683, none, true⟩).1.ntpRequest = initPacket 683 ∧
    (initPacket 683).length = 48 ∧
    getByte (initPacket 683) 0 = 0b00100011 ∧
    getByte (initPacket 683) 7 = 0 ∧
    be32 (initPacket 683) 40 = 683 % 4294967296 ∧
    be32 (initPacket 683) 44 = 0 ∧
    (sendNTPRequest mkState ⟨683, none, true⟩).1.reqTxSec = 683 % 4294967296 ∧
    (sendNTPRequest mkState ⟨683, none, true⟩).1.reqTxFrac = 0 :=
  request_packet_format mkState ⟨683, none, true⟩ 7 (by decide) (by decide)

/-- Claim C10: `epoch()` returns the sentinel 0 whenever the stored network
seconds or the stored local-clock-at-sync value is 0; consequently, if a
fully valid response happens to be accepted at a clock reading congruent to
0 the new sync record has `lastSyncMillis` = 0 and every subsequent
`epoch()` query reports no time available. -/
theorem zero_sync_sentinel (s : State) (q : List Nat) (now t : Nat) :
    ((s.ntpTimeSeconds = 0 ∨ s.lastSyncMillis = 0) → epoch s t = 0) ∧
    ((processNTPResponse s (some q) now).2 = NTP_CONNECTED →
       now % 4294967296 = 0 →
       epoch (processNTPResponse s (some q) now).1 t = 0) := by
  constructor
  · intro h
    unfold epoch
    rw [if_pos h]
  · intro hc hz
    have h2 := pp_connected_lastSync
      {s with requestTimestamp := 0, ntpQuery := List.replicate 48 0} q now hc
    rw [hz] at h2
    have h3 : (processNTPResponse s (some q) now).1.lastSyncMillis = 0 := h2
    unfold epoch
    rw [if_pos (Or.inr h3)]

/-- Witness for C10: the fully valid `validPkt` accepted at clock reading 0
produces a sync record that every later `epoch()` query reports as
unavailable; and a state that never synced reports 0 as well. -/
theorem zero_sync_sentinel_witness :
    ((processNTPResponse {mkState with reqTxSec := 5} (some validPkt) 0).2 =
        NTP_CONNECTED →
      0 % 4294967296 = 0 →
      epoch (processNTPResponse {mkState with reqTxSec := 5}
        (some validPkt) 0).1 77 = 0) ∧
    epoch mkState 77 = 0 :=
  ⟨(zero_sync_sentinel {mkState with reqTxSec := 5} validPkt 0 77).2,
   (zero_sync_sentinel mkState validPkt 0 77).1 (Or.inl rfl)⟩

end NTP2
